import Mathlib

/-!
Verification development for the `arya_api_framework` repository: a shallow
embedding of the configuration merge, status-code-to-exception mapping,
request dispatcher, file chunking, client construction and client shutdown,
together with theorems settling the specification's claims about them.
-/

namespace AryaApi

/-! ## Basic value and JSON model -/

/-- Values carried by header/cookie/parameter mappings
(`Dict[str, Union[str, int]]` in the source typing aliases). -/
inductive Val where
  | str (s : String)
  | int (n : Int)
deriving DecidableEq

/-- Parsed JSON bodies as produced by `response.json()`. -/
inductive Json where
  | null
  | bool (b : Bool)
  | num (n : Int)
  | str (s : String)
  | arr (elems : List Json)
  | obj (fields : List (String × Json))

/-- A plain key/value mapping (a Python `dict` in insertion order). -/
abbrev Mapping (α : Type) := List (String × α)

/-- A value that is either a plain mapping or a structured schema object
(`Union[Dict[...], BaseModel]`, the `MappingOrModel` alias of the source). -/
inductive ObjOrMap (α : Type) where
  | map (m : Mapping α)
  | model (fields : Mapping α)
deriving DecidableEq

/-- Modelled from the spec: `flatten_obj` is imported by
`async_framework/__init__.py` from `..utils` but is absent from the `utils.py`
under `src/`.  Section 4.1: "Schema objects are first flattened to plain
key/value mappings before merging"; a plain mapping is returned unchanged. -/
def flatten_obj {α : Type} : ObjOrMap α → Mapping α
  | .map m => m
  | .model fields => fields

/-- Shallow last-write-wins merge of two flat mappings: default entries whose
key occurs in the override are replaced, all override entries are kept. -/
def merge_dicts_flat {α : Type} (defaults override : Mapping α) : Mapping α :=
  defaults.filter (fun p => (override.lookup p.1).isNone) ++ override

/-- Modelled from the spec: `merge_dicts` is imported by
`async_framework/__init__.py` from `..utils` but is absent from the `utils.py`
under `src/`.  Section 4.1: "given a client-level default mapping and a
call-level override mapping (each possibly a structured schema object instead
of a plain mapping), produce a single flat mapping where keys present in the
override replace the corresponding client default key, and keys absent from
the override retain the client default"; an absent (`None`) argument
contributes no keys. -/
def merge_dicts {α : Type} (defaults override : Option (ObjOrMap α)) : Mapping α :=
  merge_dicts_flat
    ((defaults.map flatten_obj).getD [])
    ((override.map flatten_obj).getD [])

/-! ## File chunking (`sync_framework/utils.py`, `chunk_file_reader`) -/

/-- The read loop of `chunk_file_reader`: repeatedly read up to `n` items from
the remaining content and yield each non-empty chunk, stopping when a read
returns nothing.  The fuel argument is a termination measure; `content.length`
fuel is always sufficient for a positive chunk size. -/
def read_chunk_loop {α : Type} (n : Nat) : Nat → List α → List (List α)
  | 0, _ => []
  | _ + 1, [] => []
  | fuel + 1, x :: xs =>
    (x :: xs).take n :: read_chunk_loop n fuel ((x :: xs).drop n)

/-- Embedding of `chunk_file_reader` (`sync_framework/utils.py` lines 15-21):
open the file, read `64 * 1024` bytes at a time and yield each chunk while it
is non-empty.  The file's content is modelled as the list of its bytes. -/
def chunk_file_reader {α : Type} (content : List α) : List (List α) :=
  read_chunk_loop (64 * 1024) content.length content

/-! ## Status codes and the exception hierarchy (`errors.py`)

The numeric constants live in the repository's `statuses` module, which
`errors.py` star-imports.  That module is not under `src/`, so the constants
are modelled from the spec (section 4.2 names the standard 3xx/4xx/5xx table):
each `HTTP_nnn_NAME` constant denotes the standard status code `nnn` carried
in its own name. -/

/-- Modelled from the spec: `HTTP_300_MULTIPLE_CHOICES` from the absent
`statuses` module; its value is the code named by the constant. -/
def HTTP_300_MULTIPLE_CHOICES : Nat := 300

def HTTP_301_MOVED_PERMANENTLY : Nat := 301

def HTTP_302_FOUND : Nat := 302

def HTTP_303_SEE_OTHER : Nat := 303

def HTTP_304_NOT_MODIFIED : Nat := 304

def HTTP_305_USE_PROXY : Nat := 305

def HTTP_306_RESERVED : Nat := 306

def HTTP_307_TEMPORARY_REDIRECT : Nat := 307

def HTTP_308_PERMANENT_REDIRECT : Nat := 308

def HTTP_400_BAD_REQUEST : Nat := 400

def HTTP_401_UNAUTHORIZED : Nat := 401

def HTTP_402_PAYMENT_REQUIRED : Nat := 402

def HTTP_403_FORBIDDEN : Nat := 403

def HTTP_404_NOT_FOUND : Nat := 404

def HTTP_405_METHOD_NOT_ALLOWED : Nat := 405

def HTTP_406_NOT_ACCEPTABLE : Nat := 406

def HTTP_407_PROXY_AUTHENTICATION_REQUIRED : Nat := 407

def HTTP_408_REQUEST_TIMEOUT : Nat := 408

def HTTP_409_CONFLICT : Nat := 409

def HTTP_410_GONE : Nat := 410

def HTTP_411_LENGTH_REQUIRED : Nat := 411

def HTTP_412_PRECONDITION_FAILED : Nat := 412

def HTTP_413_REQUEST_ENTITY_TOO_LARGE : Nat := 413

def HTTP_414_REQUEST_URI_TOO_LONG : Nat := 414

def HTTP_415_UNSUPPORTED_MEDIA_TYPE : Nat := 415

def HTTP_416_REQUESTED_RANGE_NOT_SATISFIABLE : Nat := 416

def HTTP_417_EXPECTATION_FAILED : Nat := 417

def HTTP_418_IM_A_TEAPOT : Nat := 418

def HTTP_421_MISDIRECTED_REQUEST : Nat := 421

def HTTP_422_UNPROCESSABLE_ENTITY : Nat := 422

def HTTP_423_LOCKED : Nat := 423

def HTTP_424_FAILED_DEPENDENCY : Nat := 424

def HTTP_425_TOO_EARLY : Nat := 425

def HTTP_426_UPGRADE_REQUIRED : Nat := 426

def HTTP_428_PRECONDITION_REQUIRED : Nat := 428

def HTTP_429_TOO_MANY_REQUESTS : Nat := 429

def HTTP_431_REQUEST_HEADER_FIELDS_TOO_LARGE : Nat := 431

def HTTP_451_UNAVAILABLE_FOR_LEGAL_REASONS : Nat := 451

def HTTP_500_INTERNAL_SERVER_ERROR : Nat := 500

def HTTP_501_NOT_IMPLEMENTED : Nat := 501

def HTTP_502_BAD_GATEWAY : Nat := 502

def HTTP_503_SERVICE_UNAVAILABLE : Nat := 503

def HTTP_504_GATEWAY_TIMEOUT : Nat := 504

def HTTP_505_HTTP_VERSION_NOT_SUPPORTED : Nat := 505

def HTTP_506_VARIANT_ALSO_NEGOTIATES : Nat := 506

def HTTP_507_INSUFFICIENT_STORAGE : Nat := 507

def HTTP_508_LOOP_DETECTED : Nat := 508

def HTTP_510_NOT_EXTENDED : Nat := 510

def HTTP_511_NETWORK_AUTHENTICATION_REQUIRED : Nat := 511

/-- The exception classes of the `HTTPError` hierarchy declared in
`errors.py` (lines 164-484): the base class, the three family classes, and
one leaf class per mapped status code. -/
inductive ErrorCls where
  | HTTPError
  | HTTPRedirect
  | HTTPClientError
  | HTTPServerError
  | HTTPMultipleChoices
  | HTTPMovedPermanently
  | HTTPFound
  | HTTPSeeOther
  | HTTPNotModified
  | HTTPUseProxy
  | HTTPReserved
  | HTTPTemporaryRedirect
  | HTTPPermanentRedirect
  | HTTPBadRequest
  | HTTPUnauthorized
  | HTTPPaymentRequired
  | HTTPForbidden
  | HTTPNotFound
  | HTTPMethodNotAllowed
  | HTTPNotAcceptable
  | HTTPProxyAuthenticationRequired
  | HTTPRequestTimeout
  | HTTPConflict
  | HTTPGone
  | HTTPLengthRequired
  | HTTPPreconditionFailed
  | HTTPRequestEntityTooLarge
  | HTTPRequestUriTooLong
  | HTTPUnsupportedMediaType
  | HTTPRequestedRangeNotSatisfiable
  | HTTPExpectationFailed
  | HTTPImATeapot
  | HTTPMisdirectedRequest
  | HTTPUnprocessableEntity
  | HTTPLocked
  | HTTPFailedDependency
  | HTTPTooEarly
  | HTTPUpgradeRequired
  | HTTPPreconditionRequired
  | HTTPTooManyRequests
  | HTTPRequestHeaderFieldsTooLarge
  | HTTPUnavailableForLegalReasons
  | HTTPInternalServerError
  | HTTPNotImplemented
  | HTTPBadGateway
  | HTTPServiceUnavailable
  | HTTPGatewayTimeout
  | HTTPHttpServerVersionNotSupported
  | HTTPVariantAlsoNegotiates
  | HTTPInsufficientStorage
  | HTTPLoopDetected
  | HTTPNotExtended
  | HTTPNetworkAuthenticationRequired
deriving DecidableEq

/-- The direct superclass of each class in the hierarchy, exactly as declared
by the `class X(Y)` headers of `errors.py` (`HTTPError` derives from
`FrameworkException`, which lies outside this hierarchy). -/
def parentCls : ErrorCls → Option ErrorCls
  | .HTTPError => none
  | .HTTPRedirect => some .HTTPError
  | .HTTPClientError => some .HTTPError
  | .HTTPServerError => some .HTTPError
  | .HTTPMultipleChoices => some .HTTPRedirect
  | .HTTPMovedPermanently => some .HTTPRedirect
  | .HTTPFound => some .HTTPRedirect
  | .HTTPSeeOther => some .HTTPRedirect
  | .HTTPNotModified => some .HTTPRedirect
  | .HTTPUseProxy => some .HTTPRedirect
  | .HTTPReserved => some .HTTPRedirect
  | .HTTPTemporaryRedirect => some .HTTPRedirect
  | .HTTPPermanentRedirect => some .HTTPRedirect
  | .HTTPBadRequest => some .HTTPClientError
  | .HTTPUnauthorized => some .HTTPClientError
  | .HTTPPaymentRequired => some .HTTPClientError
  | .HTTPForbidden => some .HTTPClientError
  | .HTTPNotFound => some .HTTPClientError
  | .HTTPMethodNotAllowed => some .HTTPClientError
  | .HTTPNotAcceptable => some .HTTPClientError
  | .HTTPProxyAuthenticationRequired => some .HTTPClientError
  | .HTTPRequestTimeout => some .HTTPClientError
  | .HTTPConflict => some .HTTPClientError
  | .HTTPGone => some .HTTPClientError
  | .HTTPLengthRequired => some .HTTPClientError
  | .HTTPPreconditionFailed => some .HTTPClientError
  | .HTTPRequestEntityTooLarge => some .HTTPClientError
  | .HTTPRequestUriTooLong => some .HTTPClientError
  | .HTTPUnsupportedMediaType => some .HTTPClientError
  | .HTTPRequestedRangeNotSatisfiable => some .HTTPClientError
  | .HTTPExpectationFailed => some .HTTPClientError
  | .HTTPImATeapot => some .HTTPClientError
  | .HTTPMisdirectedRequest => some .HTTPClientError
  | .HTTPUnprocessableEntity => some .HTTPClientError
  | .HTTPLocked => some .HTTPClientError
  | .HTTPFailedDependency => some .HTTPClientError
  | .HTTPTooEarly => some .HTTPClientError
  | .HTTPUpgradeRequired => some .HTTPClientError
  | .HTTPPreconditionRequired => some .HTTPClientError
  | .HTTPTooManyRequests => some .HTTPClientError
  | .HTTPRequestHeaderFieldsTooLarge => some .HTTPClientError
  | .HTTPUnavailableForLegalReasons => some .HTTPClientError
  | .HTTPInternalServerError => some .HTTPServerError
  | .HTTPNotImplemented => some .HTTPServerError
  | .HTTPBadGateway => some .HTTPServerError
  | .HTTPServiceUnavailable => some .HTTPServerError
  | .HTTPGatewayTimeout => some .HTTPServerError
  | .HTTPHttpServerVersionNotSupported => some .HTTPServerError
  | .HTTPVariantAlsoNegotiates => some .HTTPServerError
  | .HTTPInsufficientStorage => some .HTTPServerError
  | .HTTPLoopDetected => some .HTTPServerError
  | .HTTPNotExtended => some .HTTPServerError
  | .HTTPNetworkAuthenticationRequired => some .HTTPServerError

/-- Superclass walk with fuel: `derivesFromN n c d` holds when `d` is reached
from `c` by at most `n` steps up the superclass chain (reflexive). -/
def derivesFromN : Nat → ErrorCls → ErrorCls → Bool
  | 0, c, d => c = d
  | n + 1, c, d =>
    c = d ||
      match parentCls c with
      | none => false
      | some p => derivesFromN n p d

/-- `derivesFrom c d` : class `c` equals `d` or inherits from it.  The
hierarchy has depth at most 2 below `HTTPError`, so fuel 4 is exhaustive. -/
def derivesFrom (c d : ErrorCls) : Bool := derivesFromN 4 c d

/-- The class-level `status_code` attribute: `HTTPError` declares
`status_code: int = None` (errors.py line 176), the three family classes do
not override it, and every leaf class overrides it with its
`HTTP_nnn_*` constant. -/
def status_code : ErrorCls → Option Nat
  | .HTTPError => none
  | .HTTPRedirect => none
  | .HTTPClientError => none
  | .HTTPServerError => none
  | .HTTPMultipleChoices => some HTTP_300_MULTIPLE_CHOICES
  | .HTTPMovedPermanently => some HTTP_301_MOVED_PERMANENTLY
  | .HTTPFound => some HTTP_302_FOUND
  | .HTTPSeeOther => some HTTP_303_SEE_OTHER
  | .HTTPNotModified => some HTTP_304_NOT_MODIFIED
  | .HTTPUseProxy => some HTTP_305_USE_PROXY
  | .HTTPReserved => some HTTP_306_RESERVED
  | .HTTPTemporaryRedirect => some HTTP_307_TEMPORARY_REDIRECT
  | .HTTPPermanentRedirect => some HTTP_308_PERMANENT_REDIRECT
  | .HTTPBadRequest => some HTTP_400_BAD_REQUEST
  | .HTTPUnauthorized => some HTTP_401_UNAUTHORIZED
  | .HTTPPaymentRequired => some HTTP_402_PAYMENT_REQUIRED
  | .HTTPForbidden => some HTTP_403_FORBIDDEN
  | .HTTPNotFound => some HTTP_404_NOT_FOUND
  | .HTTPMethodNotAllowed => some HTTP_405_METHOD_NOT_ALLOWED
  | .HTTPNotAcceptable => some HTTP_406_NOT_ACCEPTABLE
  | .HTTPProxyAuthenticationRequired => some HTTP_407_PROXY_AUTHENTICATION_REQUIRED
  | .HTTPRequestTimeout => some HTTP_408_REQUEST_TIMEOUT
  | .HTTPConflict => some HTTP_409_CONFLICT
  | .HTTPGone => some HTTP_410_GONE
  | .HTTPLengthRequired => some HTTP_411_LENGTH_REQUIRED
  | .HTTPPreconditionFailed => some HTTP_412_PRECONDITION_FAILED
  | .HTTPRequestEntityTooLarge => some HTTP_413_REQUEST_ENTITY_TOO_LARGE
  | .HTTPRequestUriTooLong => some HTTP_414_REQUEST_URI_TOO_LONG
  | .HTTPUnsupportedMediaType => some HTTP_415_UNSUPPORTED_MEDIA_TYPE
  | .HTTPRequestedRangeNotSatisfiable => some HTTP_416_REQUESTED_RANGE_NOT_SATISFIABLE
  | .HTTPExpectationFailed => some HTTP_417_EXPECTATION_FAILED
  | .HTTPImATeapot => some HTTP_418_IM_A_TEAPOT
  | .HTTPMisdirectedRequest => some HTTP_421_MISDIRECTED_REQUEST
  | .HTTPUnprocessableEntity => some HTTP_422_UNPROCESSABLE_ENTITY
  | .HTTPLocked => some HTTP_423_LOCKED
  | .HTTPFailedDependency => some HTTP_424_FAILED_DEPENDENCY
  | .HTTPTooEarly => some HTTP_425_TOO_EARLY
  | .HTTPUpgradeRequired => some HTTP_426_UPGRADE_REQUIRED
  | .HTTPPreconditionRequired => some HTTP_428_PRECONDITION_REQUIRED
  | .HTTPTooManyRequests => some HTTP_429_TOO_MANY_REQUESTS
  | .HTTPRequestHeaderFieldsTooLarge => some HTTP_431_REQUEST_HEADER_FIELDS_TOO_LARGE
  | .HTTPUnavailableForLegalReasons => some HTTP_451_UNAVAILABLE_FOR_LEGAL_REASONS
  | .HTTPInternalServerError => some HTTP_500_INTERNAL_SERVER_ERROR
  | .HTTPNotImplemented => some HTTP_501_NOT_IMPLEMENTED
  | .HTTPBadGateway => some HTTP_502_BAD_GATEWAY
  | .HTTPServiceUnavailable => some HTTP_503_SERVICE_UNAVAILABLE
  | .HTTPGatewayTimeout => some HTTP_504_GATEWAY_TIMEOUT
  | .HTTPHttpServerVersionNotSupported => some HTTP_505_HTTP_VERSION_NOT_SUPPORTED
  | .HTTPVariantAlsoNegotiates => some HTTP_506_VARIANT_ALSO_NEGOTIATES
  | .HTTPInsufficientStorage => some HTTP_507_INSUFFICIENT_STORAGE
  | .HTTPLoopDetected => some HTTP_508_LOOP_DETECTED
  | .HTTPNotExtended => some HTTP_510_NOT_EXTENDED
  | .HTTPNetworkAuthenticationRequired => some HTTP_511_NETWORK_AUTHENTICATION_REQUIRED

/-- The `ERROR_RESPONSE_MAPPING` dictionary of `errors.py` (lines 488-541),
entry for entry in source order. -/
def ERROR_RESPONSE_MAPPING : List (Nat × ErrorCls) :=
  [ (HTTP_300_MULTIPLE_CHOICES, .HTTPMultipleChoices),
    (HTTP_301_MOVED_PERMANENTLY, .HTTPMovedPermanently),
    (HTTP_302_FOUND, .HTTPFound),
    (HTTP_303_SEE_OTHER, .HTTPSeeOther),
    (HTTP_304_NOT_MODIFIED, .HTTPNotModified),
    (HTTP_305_USE_PROXY, .HTTPUseProxy),
    (HTTP_306_RESERVED, .HTTPReserved),
    (HTTP_307_TEMPORARY_REDIRECT, .HTTPTemporaryRedirect),
    (HTTP_308_PERMANENT_REDIRECT, .HTTPPermanentRedirect),
    (HTTP_400_BAD_REQUEST, .HTTPBadRequest),
    (HTTP_401_UNAUTHORIZED, .HTTPUnauthorized),
    (HTTP_402_PAYMENT_REQUIRED, .HTTPPaymentRequired),
    (HTTP_403_FORBIDDEN, .HTTPForbidden),
    (HTTP_404_NOT_FOUND, .HTTPNotFound),
    (HTTP_405_METHOD_NOT_ALLOWED, .HTTPMethodNotAllowed),
    (HTTP_406_NOT_ACCEPTABLE, .HTTPNotAcceptable),
    (HTTP_407_PROXY_AUTHENTICATION_REQUIRED, .HTTPProxyAuthenticationRequired),
    (HTTP_408_REQUEST_TIMEOUT, .HTTPRequestTimeout),
    (HTTP_409_CONFLICT, .HTTPConflict),
    (HTTP_410_GONE, .HTTPGone),
    (HTTP_411_LENGTH_REQUIRED, .HTTPLengthRequired),
    (HTTP_412_PRECONDITION_FAILED, .HTTPPreconditionFailed),
    (HTTP_413_REQUEST_ENTITY_TOO_LARGE, .HTTPRequestEntityTooLarge),
    (HTTP_414_REQUEST_URI_TOO_LONG, .HTTPRequestUriTooLong),
    (HTTP_415_UNSUPPORTED_MEDIA_TYPE, .HTTPUnsupportedMediaType),
    (HTTP_416_REQUESTED_RANGE_NOT_SATISFIABLE, .HTTPRequestedRangeNotSatisfiable),
    (HTTP_417_EXPECTATION_FAILED, .HTTPExpectationFailed),
    (HTTP_418_IM_A_TEAPOT, .HTTPImATeapot),
    (HTTP_421_MISDIRECTED_REQUEST, .HTTPMisdirectedRequest),
    (HTTP_422_UNPROCESSABLE_ENTITY, .HTTPUnprocessableEntity),
    (HTTP_423_LOCKED, .HTTPLocked),
    (HTTP_424_FAILED_DEPENDENCY, .HTTPFailedDependency),
    (HTTP_425_TOO_EARLY, .HTTPTooEarly),
    (HTTP_426_UPGRADE_REQUIRED, .HTTPUpgradeRequired),
    (HTTP_428_PRECONDITION_REQUIRED, .HTTPPreconditionRequired),
    (HTTP_429_TOO_MANY_REQUESTS, .HTTPTooManyRequests),
    (HTTP_431_REQUEST_HEADER_FIELDS_TOO_LARGE, .HTTPRequestHeaderFieldsTooLarge),
    (HTTP_451_UNAVAILABLE_FOR_LEGAL_REASONS, .HTTPUnavailableForLegalReasons),
    (HTTP_500_INTERNAL_SERVER_ERROR, .HTTPInternalServerError),
    (HTTP_501_NOT_IMPLEMENTED, .HTTPNotImplemented),
    (HTTP_502_BAD_GATEWAY, .HTTPBadGateway),
    (HTTP_503_SERVICE_UNAVAILABLE, .HTTPServiceUnavailable),
    (HTTP_504_GATEWAY_TIMEOUT, .HTTPGatewayTimeout),
    (HTTP_505_HTTP_VERSION_NOT_SUPPORTED, .HTTPHttpServerVersionNotSupported),
    (HTTP_506_VARIANT_ALSO_NEGOTIATES, .HTTPVariantAlsoNegotiates),
    (HTTP_507_INSUFFICIENT_STORAGE, .HTTPInsufficientStorage),
    (HTTP_508_LOOP_DETECTED, .HTTPLoopDetected),
    (HTTP_510_NOT_EXTENDED, .HTTPNotExtended),
    (HTTP_511_NETWORK_AUTHENTICATION_REQUIRED, .HTTPNetworkAuthenticationRequired) ]

/-- The dispatcher's error-class lookup,
`ERROR_RESPONSE_MAPPING.get(response.status, HTTPError)`
(`async_framework/__init__.py` line 348). -/
def errorClassFor (status : Nat) : ErrorCls :=
  (ERROR_RESPONSE_MAPPING.lookup status).getD .HTTPError

/-- The family class a status code belongs to by its hundreds digit:
3xx redirection, 4xx client error, 5xx server error. -/
def hundredsFamily (code : Nat) : ErrorCls :=
  if code / 100 = 3 then .HTTPRedirect
  else if code / 100 = 4 then .HTTPClientError
  else if code / 100 = 5 then .HTTPServerError
  else .HTTPError

/-! ## The client (`framework.py` / `async_framework/__init__.py`) -/

/-- A response-schema type registered for a status code or supplied as a
`response_format`; schema classes are identified by name, and applying a
schema is modelled by tagging the payload with it (`parse_obj_as`). -/
abbrev SchemaId := String

/-- The observable state of an `AsyncClient`: the configured defaults from
the subclass keyword arguments, and the mutable shutdown state.  The
`extensions` and `subclients` registries are kept as name lists;
`session_closed` records whether the underlying `aiohttp.ClientSession` has
been closed. -/
structure Client where
  uri : String
  uri_path : Option String
  headers : Option (ObjOrMap Val)
  cookies : Option (ObjOrMap Val)
  parameters : Option (ObjOrMap Val)
  error_responses : Option (List (Nat × SchemaId))
  bearer_token : Option String
  rate_limit : Option Nat
  rate_limit_interval : Nat
  _closed : Bool
  session_closed : Bool
  extensions : List String
  subclients : List String
deriving DecidableEq

/-- Modelled from the spec: the read-only `closed` property of
`ClientInternal` (not under `src/`) reports whether the internal session has
been closed — "Whether or not the internal session has been closed.  If the
session has been closed, the client will not allow any further requests to be
made" (class docstring, `async_framework/__init__.py` lines 144-148). -/
def Client.closed (c : Client) : Bool := c._closed

/-- Exceptions observable from the embedded operations: the construction
failure (`ClientError`), the body-parse failure (`ResponseParseError`, which
carries the raw response text, errors.py lines 145-161), and the HTTP status
errors (an `ErrorCls` instance carrying its payload). -/
inductive ErrPayload where
  | raw (j : Json)
  | parsed (schema : SchemaId) (j : Json)

/-- Result of `parse_obj_as(model, data)` on an error payload is `parsed`;
an unregistered status keeps the raw parsed JSON. -/
inductive FrameworkExc where
  | clientError (msg : String)
  | responseParseError (raw_response : String)
  | httpError (cls : ErrorCls) (payload : ErrPayload)

/-- The keyword arguments a client subclass/instance is configured with
(`ClientInit.__call__`, framework.py lines 23-41); `none` models an absent
keyword. -/
structure Kwargs where
  uri : Option String := none
  headers : Option (ObjOrMap Val) := none
  cookies : Option (ObjOrMap Val) := none
  parameters : Option (ObjOrMap Val) := none
  error_responses : Option (List (Nat × SchemaId)) := none
  bearer_token : Option String := none
  rate_limit : Option Nat := none
  rate_limit_interval : Option Nat := none

/-- A keyword value as retrieved by `kwargs.get(key, MISSING)`: the `MISSING`
sentinel when the keyword was not supplied. -/
inductive Arg (α : Type) where
  | missing
  | given (a : α)

/-- `kwargs.get(key, MISSING)` for a keyword modelled as an `Option`. -/
def argOf {α : Type} : Option α → Arg α
  | none => .missing
  | some a => .given a

/-- An argument with the `MISSING` sentinel replaced by the unset default. -/
def Arg.toOption {α : Type} : Arg α → Option α
  | .missing => none
  | .given a => some a

/-- Modelled from the spec: `ClientInternal.__init__` (not under `src/`;
only its metaclass `ClientInit` and callers are).  Section 3: "a client with
no base address is invalid and must fail fast at construction", and the
`AsyncClient` docstring (lines 104-107): if `uri` is not given, an
`errors.ClientError` exception is raised.  A `MISSING` keyword becomes the
unset default; the split of `uri` into root and path (done by the missing
code) is elided and the path component left unset. -/
def clientInternalInit (uri : Arg String) (headers : Arg (ObjOrMap Val))
    (cookies : Arg (ObjOrMap Val)) (parameters : Arg (ObjOrMap Val))
    (error_responses : Arg (List (Nat × SchemaId))) (bearer_token : Arg String)
    (rate_limit : Arg Nat) (rate_limit_interval : Arg Nat) :
    Except FrameworkExc Client :=
  match uri with
  | .missing => .error (.clientError "A uri must be given to create a client.")
  | .given u =>
    .ok
      { uri := u
        uri_path := none
        headers := headers.toOption
        cookies := cookies.toOption
        parameters := parameters.toOption
        error_responses := error_responses.toOption
        bearer_token := bearer_token.toOption
        rate_limit := rate_limit.toOption
        rate_limit_interval := rate_limit_interval.toOption.getD 1
        _closed := false
        session_closed := false
        extensions := []
        subclients := [] }

/-- Embedding of `ClientInit.__call__` (framework.py lines 23-41): each
configuration keyword is read with `kwargs.get(key, MISSING)` and passed to
the class constructor (`type.__call__`, which runs the spec-modelled
`ClientInternal.__init__`). -/
def ClientInit_call (kw : Kwargs) : Except FrameworkExc Client :=
  clientInternalInit (argOf kw.uri) (argOf kw.headers) (argOf kw.cookies)
    (argOf kw.parameters) (argOf kw.error_responses) (argOf kw.bearer_token)
    (argOf kw.rate_limit) (argOf kw.rate_limit_interval)

/-- Modelled from the spec: `ClientInternal._teardown` (not under `src/`),
called at the end of `close()` — "Unloads any loaded extensions and
SubClients" (`close` docstring, `async_framework/__init__.py` lines
1006-1010). -/
def teardown (c : Client) : Client :=
  { c with extensions := [], subclients := [] }

/-- Embedding of `AsyncClient.close` (`async_framework/__init__.py` lines
1005-1015): when `_closed` is not yet set, close the underlying session and
set the flag; then tear registries down.  The second component counts how
many times this call closed the underlying session. -/
def close (c : Client) : Client × Nat :=
  if c._closed then (teardown c, 0)
  else (teardown { c with session_closed := true, _closed := true }, 1)

/-! ## The request dispatcher (`AsyncClient.request`) -/

/-- The per-call arguments of `AsyncClient.request`
(`async_framework/__init__.py` lines 206-219). -/
structure CallArgs where
  method : String
  path : String := ""
  body : Option Json := none
  data : Option String := none
  headers : Option (ObjOrMap Val) := none
  cookies : Option (ObjOrMap Val) := none
  parameters : Option (ObjOrMap Val) := none
  response_format : Option SchemaId := none
  timeout : Nat := 300
  error_responses : Option (List (Nat × SchemaId)) := none

/-- The response the underlying session produces for the issued call:
status, the JSON body when `response.json()` succeeds (`none` models a
`JSONDecodeError`), the raw text, and the final request URL. -/
structure HttpResponse where
  status : Nat
  json : Option Json
  text : String
  url : String

/-- A schema-validated response object as built by
`parse_obj_as(response_format, data)`: a `Response` model instance
(framework.py lines 331-376).  `request_base_` is the declared model field
(populated from the input data when present, `None` by default);
`_request_base` is the distinct, undeclared attribute that the dispatcher
assigns the request URL to (`async_framework/__init__.py` lines 338 and
343). -/
structure ParsedResponse where
  format : SchemaId
  data : Json
  request_base_ : Option String
  _request_base : Option String

/-- The string held by a JSON object's field, when it is a string. -/
def jsonStrField (j : Json) (key : String) : Option String :=
  match j with
  | .obj fields =>
    match fields.lookup key with
    | some (.str s) => some s
    | _ => none
  | _ => none

/-- `parse_obj_as(response_format, data)`: validate `data` into a `Response`
model.  The declared `request_base_` field takes the matching field of the
input data when present and defaults to `None` (framework.py line 375); no
`_request_base` attribute exists on a fresh model. -/
def parse_obj_as (fmt : SchemaId) (data : Json) : ParsedResponse :=
  { format := fmt
    data := data
    request_base_ := jsonStrField data "request_base_"
    _request_base := none }

/-- The dispatcher's stamping statement `obj._request_base = str(response.url)`
(`async_framework/__init__.py` lines 338 and 343): it assigns the undeclared
`_request_base` attribute, not the declared `request_base_` field. -/
def stampRequestBase (obj : ParsedResponse) (url : String) : ParsedResponse :=
  { obj with _request_base := some url }

/-- What the dispatcher hands to `self._session.request(...)`
(`async_framework/__init__.py` lines 314-322). -/
structure SentRequest where
  method : String
  path : String
  headers : Option (Mapping Val)
  cookies : Option (Mapping Val)
  params : Mapping Val
  body : Option Json
  data : Option String
  timeout : Nat

/-- A successful dispatcher return value: the raw JSON structure, or one
schema-validated object, or a list of them. -/
inductive RequestResult where
  | rawJson (j : Json)
  | single (r : ParsedResponse)
  | many (rs : List ParsedResponse)

/-- The full observable outcome of one `request` call: the returned value or
raised exception, the request the session actually issued (`none` when no
network call was made), the warnings logged, and the client state after the
call. -/
structure DispatchResult where
  result : Except FrameworkExc (Option RequestResult)
  sent : Option SentRequest
  warnings : List String
  clientAfter : Client

/-- The warning logged when a request is attempted on a closed client
(`async_framework/__init__.py` line 295), with the class-name interpolation
resolved. -/
def closedSessionWarning : String :=
  "The AsyncClient session has already been closed, and no further requests will be processed."

/-- The dispatcher's effective error-schema table,
`error_responses = error_responses or self.error_responses or {}`
(`async_framework/__init__.py` line 312): the per-call table when truthy
(present and non-empty), else the client table when truthy, else empty. -/
def effective_error_responses (client : Client) (args : CallArgs) :
    List (Nat × SchemaId) :=
  match args.error_responses with
  | some l => if l.isEmpty then client.error_responses.getD [] else l
  | none => client.error_responses.getD []

/-- The dispatcher's path resolution (`async_framework/__init__.py` lines
298-299 and 306): prefix the call path with `/` when needed, then combine it
with the client's `uri_path` by the conditional chain of line 306 (`None` and
the empty string are both falsy). -/
def resolve_path (client : Client) (path : String) : String :=
  let path1 := if path ≠ "" && !path.startsWith "/" then "/" ++ path else path
  let upOk := match client.uri_path with
    | some s => s ≠ ""
    | none => false
  let upStr := client.uri_path.getD ""
  if upOk && path1 ≠ "" then upStr ++ path1
  else if upOk then upStr
  else if path1 ≠ "" then path1
  else ""

/-- Embedding of `AsyncClient.request` (`async_framework/__init__.py` lines
294-360).  If the client is closed, log a warning and return `None` without
a network call.  Otherwise resolve the path, flatten the per-call headers
and cookies, merge the parameters with the client defaults, resolve the
effective error-schema table, and issue the call (its response is the `resp`
argument; the rate-limiter suspension has no observable effect here).  On an
`ok` status (`status < 400` for `aiohttp`), a failed JSON parse raises
`ResponseParseError` on the raw text; with a `response_format`, a JSON list
becomes a list of validated objects and any other JSON one object, each
stamped via `_request_base`; otherwise the raw JSON is returned.  On an error
status, a failed parse raises `ResponseParseError`; otherwise the mapped
error class is raised carrying the schema-parsed payload when a schema is
registered for the status and the raw payload when not. -/
def request (client : Client) (args : CallArgs) (resp : HttpResponse) :
    DispatchResult :=
  if client.closed then
    { result := .ok none
      sent := none
      warnings := [closedSessionWarning]
      clientAfter := client }
  else
    let sent : SentRequest :=
      { method := args.method
        path := resolve_path client args.path
        headers := args.headers.map flatten_obj
        cookies := args.cookies.map flatten_obj
        params := merge_dicts client.parameters args.parameters
        body := args.body
        data := args.data
        timeout := args.timeout }
    let finish := fun (r : Except FrameworkExc (Option RequestResult)) =>
      { result := r
        sent := some sent
        warnings := []
        clientAfter := client }
    if resp.status < 400 then
      match resp.json with
      | none => finish (.error (.responseParseError resp.text))
      | some j =>
        match args.response_format with
        | some fmt =>
          match j with
          | .arr elems =>
            finish (.ok (some (.many (elems.map
              (fun dt => stampRequestBase (parse_obj_as fmt dt) resp.url)))))
          | _ =>
            finish (.ok (some (.single
              (stampRequestBase (parse_obj_as fmt j) resp.url))))
        | none => finish (.ok (some (.rawJson j)))
    else
      let errorClass := errorClassFor resp.status
      let errorModel := (effective_error_responses client args).lookup resp.status
      match resp.json with
      | none => finish (.error (.responseParseError resp.text))
      | some j =>
        match errorModel with
        | some m => finish (.error (.httpError errorClass (.parsed m j)))
        | none => finish (.error (.httpError errorClass (.raw j)))

/-! ## Concrete fixtures used by witnesses and counterexamples -/

/-- An open client configured with one default header, one default cookie and
one default query parameter. -/
def sampleOpenClient : Client :=
  { uri := "https://api.example/v1"
    uri_path := some "/v1"
    headers := some (.map [("a", .str "1")])
    cookies := some (.map [("c", .str "k")])
    parameters := some (.map [("p", .int 1)])
    error_responses := none
    bearer_token := none
    rate_limit := none
    rate_limit_interval := 1
    _closed := false
    session_closed := false
    extensions := []
    subclients := [] }

/-- The same client after its session has been closed. -/
def sampleClosedClient : Client :=
  { sampleOpenClient with _closed := true, session_closed := true }

/-- The open client with an error schema registered for status 404. -/
def sampleClientWith404Schema : Client :=
  { sampleOpenClient with error_responses := some [(404, "ErrModel")] }

/-- A successful JSON response. -/
def sampleResp200 : HttpResponse :=
  { status := 200
    json := some (.obj [("id", .num 1)])
    text := "ok-body"
    url := "https://api.example/v1/users" }

/-- A 404 response with an empty JSON object body. -/
def sampleResp404 : HttpResponse :=
  { status := 404
    json := some (.obj [])
    text := "not-found-body"
    url := "https://api.example/v1/users" }

/-- A successful response whose body is not parseable JSON. -/
def sampleRespBadBody200 : HttpResponse :=
  { status := 200
    json := none
    text := "<html>not json</html>"
    url := "https://api.example/v1/users" }

/-- A server-error response whose body is not parseable JSON. -/
def sampleRespBadBody500 : HttpResponse :=
  { status := 500
    json := none
    text := "<html>boom</html>"
    url := "https://api.example/v1/users" }

/-! ## Helper lemmas -/

theorem lookup_append {α : Type} (k : String) (l₁ l₂ : Mapping α) :
    (l₁ ++ l₂).lookup k =
      match l₁.lookup k with
      | some v => some v
      | none => l₂.lookup k := by
  induction l₁ with
  | nil => simp [List.lookup]
  | cons p t ih =>
    rcases p with ⟨k₁, v₁⟩
    by_cases h : k == k₁ <;> simp [List.lookup, h, ih]

theorem lookup_filter_of_lookup_none {α : Type} (k : String)
    (d o : Mapping α) (h : o.lookup k = none) :
    (d.filter (fun p => (o.lookup p.1).isNone)).lookup k = d.lookup k := by
  induction d with
  | nil => simp
  | cons p t ih =>
    rcases p with ⟨k₁, v₁⟩
    by_cases hk : k == k₁
    · have hkk : k = k₁ := by simpa using hk
      simp [List.filter, List.lookup, ← hkk, h, hk]
    · by_cases hp : (o.lookup k₁).isNone = true <;>
        simp [List.filter, List.lookup, hp, hk, ih]

theorem lookup_filter_of_lookup_some {α : Type} (k : String)
    (d o : Mapping α) (v : α) (h : o.lookup k = some v) :
    (d.filter (fun p => (o.lookup p.1).isNone)).lookup k = none := by
  induction d with
  | nil => simp
  | cons p t ih =>
    rcases p with ⟨k₁, v₁⟩
    by_cases hk : k == k₁
    · have hkk : k = k₁ := by simpa using hk
      simp [List.filter, ← hkk, h, ih]
    · by_cases hp : (o.lookup k₁).isNone = true <;>
        simp [List.filter, List.lookup, hp, hk, ih]

theorem merge_dicts_flat_lookup {α : Type} (d o : Mapping α) (k : String) :
    (merge_dicts_flat d o).lookup k =
      match o.lookup k with
      | some v => some v
      | none => d.lookup k := by
  unfold merge_dicts_flat
  rw [lookup_append]
  cases h : o.lookup k with
  | none =>
    rw [lookup_filter_of_lookup_none k d o h]
    cases List.lookup k d <;> rfl
  | some v => simp [lookup_filter_of_lookup_some k d o v h, h]

theorem merge_dicts_flat_empty_override {α : Type} (d : Mapping α) :
    merge_dicts_flat d [] = d := by
  unfold merge_dicts_flat
  induction d with
  | nil => rfl
  | cons p t ih => simp_all [List.filter, List.lookup]

theorem read_chunk_loop_nil {α : Type} (n fuel : Nat) :
    read_chunk_loop n fuel ([] : List α) = [] := by
  cases fuel <;> rfl

theorem read_chunk_loop_flatten {α : Type} (n : Nat) (hn : 0 < n) :
    ∀ (fuel : Nat) (l : List α), l.length ≤ fuel →
      (read_chunk_loop n fuel l).flatten = l := by
  intro fuel
  induction fuel with
  | zero =>
    intro l hl
    rw [List.length_eq_zero.mp (Nat.le_zero.mp hl)]
    rfl
  | succ fuel ih =>
    intro l hl
    cases l with
    | nil => rfl
    | cons x xs =>
      have hdrop : ((x :: xs).drop n).length ≤ fuel := by
        have hx : (x :: xs).length = xs.length + 1 := rfl
        rw [List.length_drop]
        simp only [List.length_cons] at hl
        omega
      calc (read_chunk_loop n (fuel + 1) (x :: xs)).flatten
          = (x :: xs).take n ++ (read_chunk_loop n fuel ((x :: xs).drop n)).flatten := by
            rw [read_chunk_loop, List.flatten_cons]
        _ = (x :: xs).take n ++ (x :: xs).drop n := by rw [ih _ hdrop]
        _ = x :: xs := List.take_append_drop n (x :: xs)

theorem read_chunk_loop_chunk_sizes {α : Type} (n : Nat) (hn : 0 < n) :
    ∀ (fuel : Nat) (l : List α), ∀ c ∈ read_chunk_loop n fuel l,
      c ≠ [] ∧ c.length ≤ n := by
  intro fuel
  induction fuel with
  | zero => intro l c hc; simp [read_chunk_loop] at hc
  | succ fuel ih =>
    intro l c hc
    cases l with
    | nil => simp [read_chunk_loop] at hc
    | cons x xs =>
      rw [read_chunk_loop] at hc
      rcases List.mem_cons.mp hc with h | h
      · subst h
        constructor
        · cases n with
          | zero => omega
          | succ m => simp [List.take]
        · simp [Nat.min_le_left n (x :: xs).length]
      · exact ih _ c h

theorem read_chunk_loop_full_chunks {α : Type} (n : Nat) :
    ∀ (fuel : Nat) (l : List α), ∀ c ∈ (read_chunk_loop n fuel l).dropLast,
      c.length = n := by
  intro fuel
  induction fuel with
  | zero => intro l c hc; simp [read_chunk_loop] at hc
  | succ fuel ih =>
    intro l c hc
    cases l with
    | nil => simp [read_chunk_loop] at hc
    | cons x xs =>
      rw [read_chunk_loop] at hc
      cases hrest : read_chunk_loop n fuel ((x :: xs).drop n) with
      | nil => simp [hrest] at hc
      | cons r rs =>
        rw [hrest] at hc
        have hstep : ((x :: xs).take n :: r :: rs).dropLast
            = (x :: xs).take n :: (r :: rs).dropLast := rfl
        rw [hstep] at hc
        rcases List.mem_cons.mp hc with h | h
        · subst h
          have hdrop : (x :: xs).drop n ≠ [] := by
            intro hemp
            rw [hemp, read_chunk_loop_nil] at hrest
            exact List.cons_ne_nil r rs hrest.symm
          have hlen : n < (x :: xs).length := by
            by_contra hle
            exact hdrop (List.drop_of_length_le (by omega))
          rw [List.length_take]
          omega
        · exact ih _ c (hrest ▸ h)

/-! ## Claim theorems -/

set_option maxRecDepth 8000 in
/-- Claim C1: for every status code in [300,511] present in
`ERROR_RESPONSE_MAPPING`, the mapped class's class-level `status_code` is that
code and the class derives from the family class of the code's hundreds digit
(3xx from `HTTPRedirect`, 4xx from `HTTPClientError`, 5xx from
`HTTPServerError`) and from the base `HTTPError`; the mapped classes are
pairwise distinct; and for any unmapped code the dispatcher's lookup
(`errorClassFor`) falls back to the generic `HTTPError`. -/
theorem error_mapping_family_consistent :
    (∀ code : Nat, code < 512 → 300 ≤ code →
      ((ERROR_RESPONSE_MAPPING.lookup code).isSome = true →
        status_code (errorClassFor code) = some code ∧
        derivesFrom (errorClassFor code) (hundredsFamily code) = true ∧
        derivesFrom (errorClassFor code) .HTTPError = true)) ∧
    (ERROR_RESPONSE_MAPPING.map Prod.snd).Nodup ∧
    (∀ code : Nat, ERROR_RESPONSE_MAPPING.lookup code = none →
      errorClassFor code = .HTTPError) := by
  refine ⟨by decide, by decide, ?_⟩
  intro code h
  simp [errorClassFor, h]

/-- Witness for C1 at concrete codes: 404 is mapped family-consistently and
the unmapped code 310 falls back to `HTTPError`. -/
theorem error_mapping_family_consistent_witness :
    status_code (errorClassFor 404) = some 404 ∧
    derivesFrom (errorClassFor 404) (hundredsFamily 404) = true ∧
    errorClassFor 310 = .HTTPError :=
  ⟨(error_mapping_family_consistent.1 404 (by decide) (by decide) (by decide)).1,
   (error_mapping_family_consistent.1 404 (by decide) (by decide) (by decide)).2.1,
   error_mapping_family_consistent.2.2 310 (by decide)⟩

/-- Claim C3: the configuration merge on flat mappings (or schema objects
flattened to them) is pointwise the override value for keys in the override
and the default value for keys absent from it; merging with an empty
override returns the defaults unchanged; and merging defaults `a=1, b=2`
with override `b=3` yields `a=1, b=3`. -/
theorem merge_config_spec {α : Type} (d o : Mapping α) :
    (∀ k, (merge_dicts (some (.map d)) (some (.map o))).lookup k =
        match o.lookup k with
        | some v => some v
        | none => d.lookup k) ∧
    (∀ k, (merge_dicts (some (.model d)) (some (.model o))).lookup k =
        match o.lookup k with
        | some v => some v
        | none => d.lookup k) ∧
    merge_dicts (some (.map d)) (some (.map [])) = d ∧
    merge_dicts (some (.map [("a", (1 : Int)), ("b", 2)]))
        (some (.map [("b", 3)])) = [("a", 1), ("b", 3)] := by
  refine ⟨?_, ?_, ?_, by decide⟩
  · intro k
    simpa [merge_dicts, flatten_obj] using merge_dicts_flat_lookup d o k
  · intro k
    simpa [merge_dicts, flatten_obj] using merge_dicts_flat_lookup d o k
  · simp [merge_dicts, flatten_obj, merge_dicts_flat_empty_override]

/-- Claim C4: the streaming file reader yields a finite sequence of
non-empty chunks of at most 64 KiB each, in order, whose concatenation is
the original content, and every chunk except possibly the last is exactly
65536 bytes. -/
theorem chunk_file_reader_spec {α : Type} (content : List α) :
    (∀ c ∈ chunk_file_reader content, c ≠ [] ∧ c.length ≤ 65536) ∧
    (chunk_file_reader content).flatten = content ∧
    (∀ c ∈ (chunk_file_reader content).dropLast, c.length = 65536) :=
  ⟨read_chunk_loop_chunk_sizes (64 * 1024) (by decide) content.length content,
   read_chunk_loop_flatten (64 * 1024) (by decide) content.length content
     (Nat.le_refl _),
   read_chunk_loop_full_chunks (64 * 1024) content.length content⟩

/-- Witness for C4 on the concrete two-byte file `[0, 1]`: its single chunk
is non-empty and within bound, and the chunks concatenate back to it. -/
theorem chunk_file_reader_spec_witness :
    (([0, 1] : List Nat) ≠ [] ∧ ([0, 1] : List Nat).length ≤ 65536) ∧
    (chunk_file_reader ([0, 1] : List Nat)).flatten = [0, 1] :=
  ⟨(chunk_file_reader_spec [0, 1]).1 [0, 1] (by decide),
   (chunk_file_reader_spec [0, 1]).2.1⟩

/-- Claim C10: `close` is idempotent — after one call the closed flag is
true; a subsequent call leaves the client state unchanged and does not close
the underlying session again, and one call closes the session at most
once. -/
theorem close_idempotent (c : Client) :
    ((close c).1)._closed = true ∧
    (close (close c).1).1 = (close c).1 ∧
    (close (close c).1).2 = 0 ∧
    (close c).2 ≤ 1 := by
  by_cases h : c._closed <;> simp [close, teardown, h]

/-- Claim C9: construction without a `uri` keyword fails with a
`ClientError`, and every successfully constructed client carries the
supplied base address. -/
theorem client_requires_uri :
    (∀ kw : Kwargs, kw.uri = none →
      ClientInit_call kw =
        .error (.clientError "A uri must be given to create a client.")) ∧
    (∀ (kw : Kwargs) (c : Client), ClientInit_call kw = .ok c →
      ∃ u, kw.uri = some u ∧ c.uri = u) := by
  constructor
  · intro kw h
    simp [ClientInit_call, argOf, h, clientInternalInit]
  · intro kw c h
    cases hu : kw.uri with
    | none =>
      rw [ClientInit_call] at h
      simp [argOf, hu, clientInternalInit] at h
    | some u =>
      refine ⟨u, rfl, ?_⟩
      rw [ClientInit_call] at h
      simp only [hu, argOf, clientInternalInit, Except.ok.injEq] at h
      rw [← h]

/-- Witness for C9: construction with no keyword arguments at all fails with
the `ClientError`. -/
theorem client_requires_uri_witness :
    ClientInit_call {} =
      .error (.clientError "A uri must be given to create a client.") :=
  client_requires_uri.1 {} rfl

/-- Claim C2: a request on a closed client performs no network call, logs
the warning, returns an empty result (`None`) rather than raising, and
leaves the client state unchanged. -/
theorem request_after_close_noop (client : Client) (args : CallArgs)
    (resp : HttpResponse) (h : client.closed = true) :
    request client args resp =
      { result := .ok none
        sent := none
        warnings := [closedSessionWarning]
        clientAfter := client } := by
  simp [request, h]

/-- Witness for C2 on the concrete closed client. -/
theorem request_after_close_noop_witness :
    request sampleClosedClient { method := "GET" } sampleResp200 =
      { result := .ok none
        sent := none
        warnings := [closedSessionWarning]
        clientAfter := sampleClosedClient } :=
  request_after_close_noop sampleClosedClient { method := "GET" }
    sampleResp200 rfl

/-- Claim C6: on an open client, a response body that fails JSON parsing
raises `ResponseParseError` carrying the raw response text — on the success
path and on the failure path alike — and exactly one network call is made:
the error is propagated, not retried. -/
theorem request_parse_failure (client : Client) (args : CallArgs)
    (resp : HttpResponse) (hopen : client.closed = false)
    (hjson : resp.json = none) :
    (request client args resp).result =
      .error (.responseParseError resp.text) ∧
    (request client args resp).sent.isSome = true := by
  by_cases hst : resp.status < 400 <;> simp [request, hopen, hjson, hst]

/-- Witness for C6 on the concrete open client, at a success status and at
an error status. -/
theorem request_parse_failure_witness :
    (request sampleOpenClient { method := "GET" } sampleRespBadBody200).result =
      .error (.responseParseError "<html>not json</html>") ∧
    (request sampleOpenClient { method := "GET" } sampleRespBadBody500).result =
      .error (.responseParseError "<html>boom</html>") :=
  ⟨(request_parse_failure sampleOpenClient { method := "GET" }
      sampleRespBadBody200 rfl rfl).1,
   (request_parse_failure sampleOpenClient { method := "GET" }
      sampleRespBadBody500 rfl rfl).1⟩

/-- Counterexample to claim C7 as stated: on the open client with default
header `a=1`, a call overriding with header `b=2` hands the session the
flattened override alone, not the section 4.1 merge of the client default
headers with the override. -/
theorem request_headers_not_merged_counterexample :
    (request sampleOpenClient
        { method := "GET", headers := some (.map [("b", .str "2")]) }
        sampleResp200).sent.map SentRequest.headers =
      some (some [("b", .str "2")]) ∧
    merge_dicts sampleOpenClient.headers (some (.map [("b", .str "2")])) =
      [("a", .str "1"), ("b", .str "2")] ∧
    (request sampleOpenClient
        { method := "GET", headers := some (.map [("b", .str "2")]) }
        sampleResp200).sent.map SentRequest.headers ≠
      some (some (merge_dicts sampleOpenClient.headers
        (some (.map [("b", .str "2")])))) := by
  refine ⟨rfl, rfl, ?_⟩
  intro h
  simp only [Option.map, request, sampleOpenClient, sampleResp200] at h
  exact absurd h (by decide)

/-- Claim C7 as amended: on every open-client dispatch, the query parameters
handed to the session are the section 4.1 merge of the client defaults with
the per-call overrides, while the headers and cookies handed to the session
are only the flattened per-call values (client default headers and cookies
are installed on the underlying session separately, not merged by the
dispatcher). -/
theorem request_sent_components (client : Client) (args : CallArgs)
    (resp : HttpResponse) (hopen : client.closed = false) :
    (request client args resp).sent =
      some
        { method := args.method
          path := resolve_path client args.path
          headers := args.headers.map flatten_obj
          cookies := args.cookies.map flatten_obj
          params := merge_dicts client.parameters args.parameters
          body := args.body
          data := args.data
          timeout := args.timeout } := by
  by_cases hst : resp.status < 400 <;>
    cases hj : resp.json <;>
      simp [request, hopen, hst, hj] <;>
        cases hf : args.response_format <;>
          (repeat' split) <;> rfl

/-- Witness for C7 (amended) on the concrete open client. -/
theorem request_sent_components_witness :
    (request sampleOpenClient
        { method := "GET", headers := some (.map [("b", .str "2")]) }
        sampleResp200).sent =
      some
        { method := "GET"
          path := resolve_path sampleOpenClient ""
          headers := some [("b", .str "2")]
          cookies := none
          params := merge_dicts sampleOpenClient.parameters none
          body := none
          data := none
          timeout := 300 } :=
  request_sent_components sampleOpenClient
    { method := "GET", headers := some (.map [("b", .str "2")]) }
    sampleResp200 rfl

/-- Claim C5: a 404 response on an open client raises `HTTPNotFound` — a
class of the `HTTPClientError` family — carrying the raw parsed payload when
no error schema is registered for 404 (neither per-call nor per-client), and
carrying the schema-parsed payload when one is registered. -/
theorem request_404_dispatch (client : Client) (args : CallArgs)
    (resp : HttpResponse) (j : Json) (hopen : client.closed = false)
    (hst : resp.status = 404) (hj : resp.json = some j) :
    ((effective_error_responses client args).lookup 404 = none →
      (request client args resp).result =
        .error (.httpError .HTTPNotFound (.raw j))) ∧
    (∀ m, (effective_error_responses client args).lookup 404 = some m →
      (request client args resp).result =
        .error (.httpError .HTTPNotFound (.parsed m j))) ∧
    derivesFrom .HTTPNotFound .HTTPClientError = true := by
  have hcls : errorClassFor 404 = .HTTPNotFound := by decide
  have hnotok : ¬ resp.status < 400 := by rw [hst]; decide
  refine ⟨?_, ?_, by decide⟩
  · intro hnone
    simp [request, hopen, hnotok, hj, hst, hnone, hcls]
  · intro m hm
    simp [request, hopen, hnotok, hj, hst, hm, hcls]

/-- Witness for C5: on the concrete 404 response, the client without a
registered schema receives the raw payload and the client with a schema
registered for 404 receives the schema-parsed payload. -/
theorem request_404_dispatch_witness :
    (request sampleOpenClient { method := "GET" } sampleResp404).result =
      .error (.httpError .HTTPNotFound (.raw (.obj []))) ∧
    (request sampleClientWith404Schema { method := "GET" } sampleResp404).result =
      .error (.httpError .HTTPNotFound (.parsed "ErrModel" (.obj []))) :=
  ⟨(request_404_dispatch sampleOpenClient { method := "GET" } sampleResp404
      (.obj []) rfl rfl rfl).1 rfl,
   (request_404_dispatch sampleClientWith404Schema { method := "GET" }
      sampleResp404 (.obj []) rfl rfl rfl).2.1 "ErrModel" rfl⟩

/-- Claim C8, evaluated at the failing input: on a successful single-object
response with a `response_format`, the dispatcher returns one validated
object, but the stamp lands on the undeclared `_request_base` attribute
(`obj._request_base = str(response.url)`, lines 338/343) while the declared
`request_base_` field of the `Response` model (framework.py line 375) stays
`None` instead of holding the originating URL; the list case misses the
field the same way. -/
theorem request_base_field_not_stamped :
    (request sampleOpenClient
        { method := "GET", response_format := some "User" }
        sampleResp200).result =
      .ok (some (.single
        { format := "User"
          data := .obj [("id", .num 1)]
          request_base_ := none
          _request_base := some "https://api.example/v1/users" })) ∧
    (∀ r, (request sampleOpenClient
        { method := "GET", response_format := some "User" }
        sampleResp200).result = .ok (some (.single r)) →
      r.request_base_ ≠ some sampleResp200.url) := by
  constructor
  · rfl
  · intro r hr hbad
    have hr2 : (.ok (some (.single
        { format := "User"
          data := .obj [("id", .num 1)]
          request_base_ := none
          _request_base := some "https://api.example/v1/users" }))
          : Except FrameworkExc (Option RequestResult)) =
        .ok (some (.single r)) := hr
    simp only [Except.ok.injEq, Option.some.injEq, RequestResult.single.injEq] at hr2
    rw [← hr2] at hbad
    exact Option.noConfusion hbad

end AryaApi
